import Mathlib

/-!
Verification of the SolarMap energy backend (Express API + JSON-file cache).

Modelling conventions:
* JS numbers are exact rationals (ℚ); `+x.toFixed(2)` becomes `round2`
  (nearest multiple of 1/100, ties toward +∞, matching the ECMAScript
  toFixed rule that picks the larger candidate integer).
* JS objects iterated with `Object.keys` become association lists in
  iteration order; `undefined`/`null` become `Option.none`.
* A thrown JS exception becomes `Except.error`; the controller's
  try/catch becomes the catch-all `serverError` response.
* File I/O of the JSON store is a `StoreContent` value: either parsed
  content or an unreadable/unparseable state.
-/

namespace SolarMap

/-- Monthly sample mapping: period key (YYYYMM string) to numeric value,
in `Object.keys` iteration order. -/
abbrev SampleMap := List (String × ℚ)

/-- DAYS_PER_MONTH = 30 in energyCalculator.js. -/
def DAYS_PER_MONTH : ℚ := 30

/-- HOURS_PER_MONTH = 24 * 30 in energyCalculator.js. -/
def HOURS_PER_MONTH : ℚ := 24 * 30

/-- AIR_DENSITY = 1.225 in energyCalculator.js. -/
def AIR_DENSITY : ℚ := 1225 / 1000

/-- Model of `+x.toFixed(2)`: rounding to 2 decimal places, nearest value
with ties toward +∞ (the ECMAScript toFixed rule picks the larger candidate
integer on a tie), i.e. ⌊q * 100 + 1/2⌋ / 100. -/
def round2 (q : ℚ) : ℚ := (⌊q * 100 + 1 / 2⌋ : ℚ) / 100

/-- Model of `key.endsWith("13")`: the last two characters are "13",
stated on the character list; false for strings shorter than 2, as in JS. -/
def endsWith13 (key : String) : Bool :=
  key.data.drop (key.data.length - 2) == ['1', '3']

/-- Model of the skip test of energyCalculator.js lines 20/57:
`MONTH_KEY.test(key) && !key.endsWith("13")` where MONTH_KEY is the
regex `^\d{6}$`. A key passes iff it is exactly six digits and does not
end in "13". -/
def isMonthKey (key : String) : Bool :=
  (key.data.length == 6 && key.data.all Char.isDigit) && !(endsWith13 key)

/-- Model of `key.slice(0, n)` for ASCII keys: the first n characters. -/
def sliceTo (key : String) (n : ℕ) : String :=
  String.mk (key.data.take n)

/-- Model of `key.slice(4, 6)` for ASCII keys: characters 4 and 5. -/
def sliceFrom4To6 (key : String) : String :=
  String.mk ((key.data.drop 4).take 2)

/-- One year's record: the month-string-to-energy mapping built by
`result[year][month] = energy` plus the running `annual` field. -/
structure YearRecord where
  months : List (String × ℚ)
  annual : ℚ
deriving DecidableEq

/-- Result collection of both calculators: year string to `YearRecord`,
in insertion order. -/
abbrev EnergyResult := List (String × YearRecord)

/-- Model of `result[year][month] = energy` inside an existing year object:
replace the month's value if present, else append it. -/
def setMonth : List (String × ℚ) → String → ℚ → List (String × ℚ)
  | [], m, e => [(m, e)]
  | (k, v) :: rest, m, e =>
    if k = m then (m, e) :: rest else (k, v) :: setMonth rest m e

/-- Model of one loop body tail of the calculators: create `{annual: 0}`
for a fresh year, set the month value, add the energy to the running
annual total and re-round it to 2 decimals (energyCalculator.js lines
31-38 and 71-78). -/
def updateYear : EnergyResult → String → String → ℚ → EnergyResult
  | [], year, m, e => [(year, { months := [(m, e)], annual := round2 (0 + e) })]
  | (y, r) :: rest, year, m, e =>
    if y = year then
      (y, { months := setMonth r.months m e, annual := round2 (r.annual + e) }) :: rest
    else
      (y, r) :: updateYear rest year m e

/-- Monthly solar energy of one sample:
`+(irradiance * area * efficiency * DAYS_PER_MONTH).toFixed(2)`. -/
def solarMonthly (area efficiency irradiance : ℚ) : ℚ :=
  round2 (irradiance * area * efficiency * DAYS_PER_MONTH)

/-- Monthly wind energy of one sample: power
`0.5 * AIR_DENSITY * area * v^3 * efficiency`, then
`+(power * HOURS_PER_MONTH / 1e6).toFixed(2)`. -/
def windMonthly (area efficiency v : ℚ) : ℚ :=
  round2 (1 / 2 * AIR_DENSITY * area * v ^ (3 : ℕ) * efficiency * HOURS_PER_MONTH / 1000000)

/-- One iteration of the calculators' key loop: skip keys failing the
month-key test, otherwise split the key into year (chars 0-4) and month
(chars 4-6) and accumulate the per-key energy. -/
def calcStep (perKey : ℚ → ℚ) (res : EnergyResult) (kv : String × ℚ) : EnergyResult :=
  if isMonthKey kv.1 then
    updateYear res (sliceTo kv.1 4) (sliceFrom4To6 kv.1) (perKey kv.2)
  else
    res

/-- calculateSolarEnergy of energyCalculator.js, for a present `data`
object. -/
def calculateSolarEnergy (data : SampleMap) (area : ℚ := 1) (efficiency : ℚ := 1 / 5) :
    EnergyResult :=
  data.foldl (calcStep (solarMonthly area efficiency)) []

/-- calculateWindEnergy of energyCalculator.js, for a present `data`
object. -/
def calculateWindEnergy (data : SampleMap) (area : ℚ := 125664 / 100) (efficiency : ℚ := 2 / 5) :
    EnergyResult :=
  data.foldl (calcStep (windMonthly area efficiency)) []

/-- calculateSolarEnergy on a possibly-undefined `data` argument:
`Object.keys(undefined)` throws a TypeError in JS, so a missing mapping
is an exception, not an empty result. -/
def calculateSolarEnergyOpt (data : Option SampleMap) (area : ℚ := 1)
    (efficiency : ℚ := 1 / 5) : Except String EnergyResult :=
  match data with
  | none => Except.error ("TypeError: Cannot convert undefined or null to object")
  | some d => Except.ok (calculateSolarEnergy d area efficiency)

/-- calculateWindEnergy on a possibly-undefined `data` argument. -/
def calculateWindEnergyOpt (data : Option SampleMap) (area : ℚ := 125664 / 100)
    (efficiency : ℚ := 2 / 5) : Except String EnergyResult :=
  match data with
  | none => Except.error ("TypeError: Cannot convert undefined or null to object")
  | some d => Except.ok (calculateWindEnergy d area efficiency)

/-- Association lookup on a year's months list. -/
def lookupMonth : List (String × ℚ) → String → Option ℚ
  | [], _ => none
  | (k, v) :: rest, m => if k = m then some v else lookupMonth rest m

/-- Association lookup on the year collection. -/
def lookupYear : EnergyResult → String → Option YearRecord
  | [], _ => none
  | (y, r) :: rest, year => if y = year then some r else lookupYear rest year

/-- Month value reached as `result[year][month]` in the output. -/
def monthValue (res : EnergyResult) (year m : String) : Option ℚ :=
  match lookupYear res year with
  | none => none
  | some r => lookupMonth r.months m

/-- Annual value reached as `result[year].annual` in the output. -/
def annualValue (res : EnergyResult) (year : String) : Option ℚ :=
  Option.map YearRecord.annual (lookupYear res year)

/-- Result of validateCoordinates in utils/helpers.js: either the parsed
pair or the error message. The parseFloat step is modelled away (inputs
are already numeric; the NaN branch has no ℚ counterpart). -/
inductive CoordCheck where
  | ok (latitude longitude : ℚ)
  | err (error : String)
deriving DecidableEq

/-- validateCoordinates of utils/helpers.js, lines 9-24: reject latitude
outside [-90, 90], then longitude outside [-180, 180], else accept. -/
def validateCoordinates (lat lon : ℚ) : CoordCheck :=
  if lat < -90 ∨ lat > 90 then
    CoordCheck.err ("Latitude must be between -90 and 90")
  else if lon < -180 ∨ lon > 180 then
    CoordCheck.err ("Longitude must be between -180 and 180")
  else
    CoordCheck.ok lat lon

/-- Raw NASA payload carried in a cache entry: the two sample mappings,
each possibly undefined (the metadata field plays no role in any claim
and is omitted). -/
structure NasaData where
  solar : Option SampleMap
  wind : Option SampleMap
deriving DecidableEq

/-- One record of the JSON cache store (services/databaseService.js).
`rawData` is optional: entries written by this backend always carry it,
but the controller guards against its absence. -/
structure CacheEntry where
  latitude : ℚ
  longitude : ℚ
  solar : EnergyResult
  wind : EnergyResult
  rawData : Option NasaData
  timestamp : String
deriving DecidableEq

/-- State of the backing JSON file: parsed content, or a
missing/unreadable/unparseable store. -/
inductive StoreContent where
  | ok : List CacheEntry → StoreContent
  | corrupt : StoreContent
deriving DecidableEq

/-- readDatabase of databaseService.js: parse the store; on any read or
parse failure the catch block logs and returns the empty array, so the
caller never sees an error. -/
def readDatabase : StoreContent → List CacheEntry
  | StoreContent.ok db => db
  | StoreContent.corrupt => []

/-- findByCoordinates of databaseService.js: load the full store and
return the first entry with both coordinates within `tolerance`
(`Math.abs(entry.latitude - latitude) < tolerance`, same for longitude). -/
def findByCoordinates (content : StoreContent) (latitude longitude : ℚ)
    (tolerance : ℚ := 1 / 100) : Option CacheEntry :=
  (readDatabase content).find? fun entry =>
    decide (|entry.latitude - latitude| < tolerance) &&
    decide (|entry.longitude - longitude| < tolerance)

/-- saveEnergyData of databaseService.js: load the store, drop every entry
with both coordinates within 0.01 of the new entry, push the new entry,
write the result back (the JS function also returns the entry it was
given; the store transition is the part modelled). -/
def saveEnergyData (content : StoreContent) (energyData : CacheEntry) : StoreContent :=
  let database := readDatabase content
  let filteredDatabase := database.filter fun entry =>
    !(decide (|entry.latitude - energyData.latitude| < 1 / 100) &&
      decide (|entry.longitude - energyData.longitude| < 1 / 100))
  StoreContent.ok (filteredDatabase ++ [energyData])

/-- getAllData of databaseService.js. -/
def getAllData (content : StoreContent) : List CacheEntry :=
  readDatabase content

/-- Body of a POST /api/calculate request (controllers/energyController.js
lines 97-103), with the destructuring defaults. `none` models an absent
field. -/
structure CalcRequest where
  latitude : Option ℚ
  longitude : Option ℚ
  area : ℚ := 1
  solarEfficiency : ℚ := 1 / 5
  windEfficiency : ℚ := 2 / 5
deriving DecidableEq

/-- Response of the calculateEnergy controller: 400, 500, the
custom-parameter payload, or the cached default payload. -/
inductive CalcResponse where
  | badRequest (error : String)
  | serverError (error : String)
  | customResult (latitude longitude : ℚ) (solar wind : EnergyResult)
      (area solarEfficiency windEfficiency : ℚ)
  | cachedResult (latitude longitude : ℚ) (solar wind : EnergyResult)
deriving DecidableEq

/-- JS truthiness test `!x` on an optional numeric: absent/null and 0 are
falsy. -/
def falsyNum : Option ℚ → Bool
  | none => true
  | some x => decide (x = 0)

/-- Tail of calculateEnergy after `energyData` is established
(energyController.js lines 134-169): 500 if rawData or either of its
series is missing, recompute and answer without saving when any
parameter differs from the defaults, else answer the cached records.
The store is returned unchanged along with the fetch flag. -/
def afterData (content : StoreContent) (fetched : Bool) (lat lon : ℚ)
    (energyData : CacheEntry) (req : CalcRequest) :
    CalcResponse × StoreContent × Bool :=
  match energyData.rawData with
  | none => (CalcResponse.serverError ("Missing raw solar or wind data"), content, fetched)
  | some raw =>
    match raw.solar, raw.wind with
    | some rawSolar, some rawWind =>
      if !(decide (req.area = 1) && decide (req.solarEfficiency = 1 / 5) &&
           decide (req.windEfficiency = 2 / 5)) then
        (CalcResponse.customResult lat lon
          (calculateSolarEnergy rawSolar req.area req.solarEfficiency)
          (calculateWindEnergy rawWind req.area req.windEfficiency)
          req.area req.solarEfficiency req.windEfficiency, content, fetched)
      else
        (CalcResponse.cachedResult lat lon energyData.solar energyData.wind, content, fetched)
    | _, _ => (CalcResponse.serverError ("Missing raw solar or wind data"), content, fetched)

/-- Miss branch of calculateEnergy (energyController.js lines 114-132):
fetch from NASA (`fetchResult = none` models a fetch failure, which the
outer catch turns into a 500), compute both default calculations
(a TypeError there is also caught as a 500), save, and continue. -/
def fetchBranch (content : StoreContent) (lat lon : ℚ) (req : CalcRequest)
    (fetchResult : Option NasaData) (now : String) :
    CalcResponse × StoreContent × Bool :=
  match fetchResult with
  | none => (CalcResponse.serverError ("Internal server error"), content, true)
  | some nasa =>
    match calculateSolarEnergyOpt nasa.solar, calculateWindEnergyOpt nasa.wind with
    | Except.ok solarEnergy, Except.ok windEnergy =>
      let energyData : CacheEntry :=
        { latitude := lat, longitude := lon, solar := solarEnergy, wind := windEnergy,
          rawData := some nasa, timestamp := now }
      afterData (saveEnergyData content energyData) true lat lon energyData req
    | _, _ => (CalcResponse.serverError ("Internal server error"), content, true)

/-- calculateEnergy of controllers/energyController.js (POST
/api/calculate). Returns the response, the resulting store content, and
whether the NASA fetch was invoked. Coordinate presence is checked by JS
truthiness only (`!latitude || !longitude`); no range validation happens
on this route. -/
def calculateEnergy (content : StoreContent) (req : CalcRequest)
    (fetchResult : Option NasaData) (now : String) :
    CalcResponse × StoreContent × Bool :=
  if falsyNum req.latitude || falsyNum req.longitude then
    (CalcResponse.badRequest ("Latitude and longitude are required"), content, false)
  else
    let lat := req.latitude.getD 0
    let lon := req.longitude.getD 0
    match findByCoordinates content lat lon with
    | some energyData =>
      if energyData.rawData.isSome then
        afterData content false lat lon energyData req
      else
        fetchBranch content lat lon req fetchResult now
    | none => fetchBranch content lat lon req fetchResult now

/-- Two cache entries are near-duplicates when both coordinates differ by
strictly less than the 0.01° tolerance (the replacement test of
saveEnergyData). -/
def nearBoth (a b : CacheEntry) : Prop :=
  |a.latitude - b.latitude| < 1 / 100 ∧ |a.longitude - b.longitude| < 1 / 100

/-- Store invariant of claim C4: no two retained entries lie within the
0.01° tolerance of each other on both axes. -/
def storeInv (db : List CacheEntry) : Prop :=
  db.Pairwise fun a b => ¬ nearBoth a b

/-- Sample NASA payload used by concrete instances. -/
def nasaW : NasaData :=
  { solar := some [(("201201"), 4)], wind := some [(("201201"), 5)] }

/-- Sample cache entry used by concrete instances. -/
def entryW : CacheEntry :=
  { latitude := 10, longitude := 20, solar := [], wind := [],
    rawData := some nasaW, timestamp := ("t") }

/-- Sample custom-parameter request (area 2 differs from the default 1). -/
def reqW : CalcRequest :=
  { latitude := some 10, longitude := some 20, area := 2 }

/-- Entry the calculate route builds and saves when fetching `nasaW` for
the out-of-range coordinate (500, 100) at time "t". -/
def entry500 : CacheEntry :=
  { latitude := 500, longitude := 100,
    solar := calculateSolarEnergy [(("201201"), 4)] 1 (1 / 5),
    wind := calculateWindEnergy [(("201201"), 5)] (125664 / 100) (2 / 5),
    rawData := some nasaW, timestamp := ("t") }

/-- Energies of the processed keys of one year, in iteration order:
specification-side description for the annual field (claim C3). -/
def processedEnergies (perKey : ℚ → ℚ) (data : SampleMap) (year : String) : List ℚ :=
  (data.filter fun kv => isMonthKey kv.1 && decide (sliceTo kv.1 4 = year)).map
    fun kv => perKey kv.2

/-- Running annual total as the spec words it: start from 0, add each
processed month's rounded value, re-round to 2 decimals after every
addition. -/
def runningAnnual (es : List ℚ) : ℚ :=
  es.foldl (fun acc e => round2 (acc + e)) 0

/-- Annual value the spec describes for a year: absent when the year has
no processed key, else the running re-rounded total of its energies. -/
def annualSpec (perKey : ℚ → ℚ) (data : SampleMap) (year : String) : Option ℚ :=
  if processedEnergies perKey data year = [] then none
  else some (runningAnnual (processedEnergies perKey data year))

/-! Helper lemmas about `round2`. -/

lemma round2_eval (q : ℚ) (z : ℤ) (h₁ : (z : ℚ) ≤ q * 100 + 1 / 2)
    (h₂ : q * 100 + 1 / 2 < z + 1) : round2 q = (z : ℚ) / 100 := by
  have hfl : ⌊q * 100 + 1 / 2⌋ = z := Int.floor_eq_iff.mpr ⟨h₁, h₂⟩
  rw [round2, hfl]

lemma round2_cent (z : ℤ) : round2 ((z : ℚ) / 100) = (z : ℚ) / 100 := by
  have hz : ((z : ℚ) / 100) * 100 = z := by field_simp
  exact round2_eval ((z : ℚ) / 100) z (by rw [hz]; linarith) (by rw [hz]; linarith)

/-! Claim C1: the wind calculator on the single sample 201201 ↦ 5.0 with
default parameters. -/

lemma windMonthly_default_at_5 : windMonthly (125664 / 100) (2 / 5) 5 = 2771 / 100 := by
  have h := round2_eval
    (1 / 2 * AIR_DENSITY * (125664 / 100) * (5 : ℚ) ^ (3 : ℕ) * (2 / 5) * HOURS_PER_MONTH
      / 1000000) 2771
    (by norm_num [AIR_DENSITY, HOURS_PER_MONTH])
    (by norm_num [AIR_DENSITY, HOURS_PER_MONTH])
  rw [windMonthly]
  rw [h]
  norm_num

lemma wind_single_sample_result :
    calculateWindEnergy [(("201201"), 5)] =
      [(("2012"), { months := [(("01"), 2771 / 100)], annual := 2771 / 100 })] := by
  have hkey : isMonthKey ("201201") = true := by decide
  have hy : sliceTo ("201201") 4 = ("2012") := by decide
  have hm : sliceFrom4To6 ("201201") = ("01") := by decide
  have ha : round2 ((2771 : ℚ) / 100) = 2771 / 100 := by
    have h := round2_cent 2771
    push_cast at h
    exact h
  simp [calculateWindEnergy, calcStep, hkey, hy, hm, updateYear, windMonthly_default_at_5, ha]

/-- Claim C1 counterexample: on the input of the claim the monthly value
the code produces for 2012/01 is not 27.72. -/
theorem C1_counterexample :
    monthValue (calculateWindEnergy [(("201201"), 5)]) ("2012") ("01") ≠ some (2772 / 100) := by
  rw [wind_single_sample_result]
  simp [monthValue, lookupYear, lookupMonth]
  norm_num

/-- Claim C1 (amended): for the single-sample input 201201 ↦ 5.0 with the
default parameters area = 1256.64 and efficiency = 0.4,
calculateWindEnergy produces for year 2012 month 01 the monthly value
27.71 MWh — the exact 2-decimal rounding of
0.5 × 1.225 × 1256.64 × 5³ × 0.4 × 720 / 1e6 = 27.708912 — and the
year's annual field equals that same value. -/
theorem C1_amended :
    monthValue (calculateWindEnergy [(("201201"), 5)]) ("2012") ("01") = some (2771 / 100) ∧
    annualValue (calculateWindEnergy [(("201201"), 5)]) ("2012") = some (2771 / 100) ∧
    round2 (1 / 2 * AIR_DENSITY * (125664 / 100) * (5 : ℚ) ^ (3 : ℕ) * (2 / 5)
      * HOURS_PER_MONTH / 1000000) = 2771 / 100 := by
  refine ⟨?_, ?_, ?_⟩
  · rw [wind_single_sample_result]
    simp [monthValue, lookupYear, lookupMonth]
  · rw [wind_single_sample_result]
    simp [annualValue, lookupYear]
  · have h := windMonthly_default_at_5
    rw [windMonthly] at h
    exact h

/-! Claim C3: the annual field is the running re-rounded sum. -/

lemma annualValue_updateYear_self (res : EnergyResult) (y m : String) (e : ℚ) :
    annualValue (updateYear res y m e) y =
      some (round2 ((annualValue res y).getD 0 + e)) := by
  induction res with
  | nil => simp [updateYear, annualValue, lookupYear]
  | cons hd tl ih =>
    obtain ⟨y', r⟩ := hd
    by_cases hy : y' = y
    · subst hy
      simp [updateYear, annualValue, lookupYear]
    · simp only [updateYear, annualValue, lookupYear, if_neg hy] at ih ⊢
      exact ih

lemma annualValue_updateYear_ne (res : EnergyResult) (y m year : String) (e : ℚ)
    (h : y ≠ year) :
    annualValue (updateYear res y m e) year = annualValue res year := by
  induction res with
  | nil => simp [updateYear, annualValue, lookupYear, h]
  | cons hd tl ih =>
    obtain ⟨y', r⟩ := hd
    by_cases hy : y' = y
    · subst hy
      simp [updateYear, annualValue, lookupYear, h]
    · simp only [updateYear, annualValue, lookupYear, if_neg hy] at ih ⊢
      by_cases hy2 : y' = year
      · simp [if_pos hy2]
      · simp only [if_neg hy2]
        exact ih

lemma annualValue_foldl (f : ℚ → ℚ) (data : SampleMap) (res : EnergyResult) (year : String) :
    annualValue (data.foldl (calcStep f) res) year =
      if annualValue res year = none ∧ processedEnergies f data year = [] then none
      else some ((processedEnergies f data year).foldl (fun acc e => round2 (acc + e))
        ((annualValue res year).getD 0)) := by
  induction data generalizing res with
  | nil =>
    cases h : annualValue res year <;> simp [processedEnergies, h]
  | cons kv rest ih =>
    by_cases hk : isMonthKey kv.1
    · by_cases hy : sliceTo kv.1 4 = year
      · have hstep : calcStep f res kv = updateYear res year (sliceFrom4To6 kv.1) (f kv.2) := by
          rw [calcStep, if_pos hk, hy]
        have hself := annualValue_updateYear_self res year (sliceFrom4To6 kv.1) (f kv.2)
        have hproc : processedEnergies f (kv :: rest) year =
            f kv.2 :: processedEnergies f rest year := by
          simp [processedEnergies, hk, hy]
        rw [List.foldl_cons, hstep, ih, hproc, hself]
        simp
      · have hstep : calcStep f res kv =
            updateYear res (sliceTo kv.1 4) (sliceFrom4To6 kv.1) (f kv.2) := by
          rw [calcStep, if_pos hk]
        have hne := annualValue_updateYear_ne res (sliceTo kv.1 4) (sliceFrom4To6 kv.1)
          year (f kv.2) hy
        have hproc : processedEnergies f (kv :: rest) year =
            processedEnergies f rest year := by
          simp [processedEnergies, hk, hy]
        rw [List.foldl_cons, hstep, ih, hne, hproc]
    · have hstep : calcStep f res kv = res := by rw [calcStep, if_neg hk]
      have hproc : processedEnergies f (kv :: rest) year =
          processedEnergies f rest year := by
        simp [processedEnergies, hk]
      rw [List.foldl_cons, hstep, ih, hproc]

/-- Claim C3: for every samples mapping and both calculators, each year's
annual field in the result equals the value obtained by starting from 0
and, for each processed month key of that year in iteration order, adding
that month's rounded energy value and re-rounding the running total to 2
decimal places after every addition. -/
theorem C3_annual_running_rounded (data : SampleMap) (area eff warea weff : ℚ)
    (year : String) :
    annualValue (calculateSolarEnergy data area eff) year =
      annualSpec (solarMonthly area eff) data year ∧
    annualValue (calculateWindEnergy data warea weff) year =
      annualSpec (windMonthly warea weff) data year := by
  have hnil : annualValue [] year = none := rfl
  constructor
  · rw [calculateSolarEnergy, annualValue_foldl, hnil, annualSpec, runningAnnual]
    by_cases h : processedEnergies (solarMonthly area eff) data year = [] <;> simp [h]
  · rw [calculateWindEnergy, annualValue_foldl, hnil, annualSpec, runningAnnual]
    by_cases h : processedEnergies (windMonthly warea weff) data year = [] <;> simp [h]

/-! Claims C4, C5, C6, C7: store and calculator behaviour. -/

lemma self_near (e : CacheEntry) :
    (decide (|e.latitude - e.latitude| < (1 : ℚ) / 100) &&
     decide (|e.longitude - e.longitude| < (1 : ℚ) / 100)) = true := by
  simp only [sub_self, abs_zero, Bool.and_eq_true, decide_eq_true_eq]
  norm_num

lemma find_antifilter_append {α : Type} (db : List α) (p : α → Bool) (e : α)
    (he : p e = true) :
    List.find? p (db.filter (fun x => !(p x)) ++ [e]) = some e := by
  induction db with
  | nil => simp [List.find?_cons, he]
  | cons hd tl ih =>
    cases hp : p hd with
    | true => simp [List.filter_cons, hp, ih]
    | false => simp [List.filter_cons, hp, List.find?_cons, ih]

lemma filter_antifilter_append {α : Type} (db : List α) (p : α → Bool) (e : α)
    (he : p e = true) :
    List.filter p (db.filter (fun x => !(p x)) ++ [e]) = [e] := by
  rw [List.filter_append]
  have h1 : (db.filter fun x => !(p x)).filter p = [] := by
    induction db with
    | nil => rfl
    | cons hd tl ih =>
      cases hp : p hd with
      | true => simp [List.filter_cons, hp, ih]
      | false => simp [List.filter_cons, hp, ih]
  rw [h1]
  simp [List.filter_cons, he]

/-- Claim C4: save preserves the 0.01°-separation invariant, and after
save(entry) exactly one entry — the new one — remains within 0.01° of the
saved coordinate on both axes. -/
theorem C4_save_replaces_neighborhood (content : StoreContent) (e : CacheEntry)
    (h : storeInv (readDatabase content)) :
    storeInv (readDatabase (saveEnergyData content e)) ∧
    (readDatabase (saveEnergyData content e)).filter
      (fun x => decide (|x.latitude - e.latitude| < 1 / 100) &&
        decide (|x.longitude - e.longitude| < 1 / 100)) = [e] := by
  constructor
  · simp only [saveEnergyData, readDatabase]
    rw [storeInv, List.pairwise_append]
    refine ⟨?_, ?_, ?_⟩
    · exact List.Pairwise.sublist (List.filter_sublist _) h
    · simp
    · intro a ha b hb
      simp only [List.mem_singleton] at hb
      rw [hb]
      simp only [List.mem_filter] at ha
      intro hcon
      rw [nearBoth] at hcon
      have htrue : (decide (|a.latitude - e.latitude| < (1 : ℚ) / 100) &&
          decide (|a.longitude - e.longitude| < (1 : ℚ) / 100)) = true := by
        simp only [Bool.and_eq_true, decide_eq_true_eq]
        exact ⟨hcon.1, hcon.2⟩
      rw [htrue] at ha
      simp at ha
  · simp only [saveEnergyData, readDatabase]
    exact filter_antifilter_append _ _ _ (self_near e)

/-- Claim C4 witness at a concrete store and entry 0.005° away. -/
theorem C4_witness :
    storeInv (readDatabase (StoreContent.ok [entryW])) ∧
    (storeInv (readDatabase (saveEnergyData (StoreContent.ok [entryW])
        { latitude := 10 + 1 / 200, longitude := 20, solar := [], wind := [],
          rawData := none, timestamp := ("u") })) ∧
     (readDatabase (saveEnergyData (StoreContent.ok [entryW])
        { latitude := 10 + 1 / 200, longitude := 20, solar := [], wind := [],
          rawData := none, timestamp := ("u") })).filter
        (fun x => decide (|x.latitude - (10 + 1 / 200 : ℚ)| < 1 / 100) &&
          decide (|x.longitude - (20 : ℚ)| < 1 / 100)) =
      [{ latitude := 10 + 1 / 200, longitude := 20, solar := [], wind := [],
         rawData := none, timestamp := ("u") }]) := by
  have hinv : storeInv (readDatabase (StoreContent.ok [entryW])) := by
    simp [storeInv, readDatabase]
  exact ⟨hinv, C4_save_replaces_neighborhood (StoreContent.ok [entryW]) _ hinv⟩

/-- Claim C5: for every store state and entry, saving the entry and then
looking its exact coordinates up with the default tolerance returns the
entry just saved, all computed fields identical. -/
theorem C5_cache_roundtrip (content : StoreContent) (e : CacheEntry) :
    findByCoordinates (saveEnergyData content e) e.latitude e.longitude = some e := by
  simp only [findByCoordinates, saveEnergyData, readDatabase]
  exact find_antifilter_append _ _ _ (self_near e)

/-- Claim C6: a read failure never surfaces: lookups on an unreadable or
unparseable store return none and getAll returns the empty list, exactly
as on an empty store. -/
theorem C6_read_fail_open (lat lon tol : ℚ) :
    findByCoordinates StoreContent.corrupt lat lon tol = none ∧
    getAllData StoreContent.corrupt = [] ∧
    findByCoordinates StoreContent.corrupt lat lon tol =
      findByCoordinates (StoreContent.ok []) lat lon tol ∧
    getAllData StoreContent.corrupt = getAllData (StoreContent.ok []) :=
  ⟨rfl, rfl, rfl, rfl⟩

/-- Claim C7 counterexample: on a missing samples mapping the calculators
do not return an empty result collection — the JS code throws a TypeError
from `Object.keys(undefined)`, modelled as an error value. -/
theorem C7_counterexample :
    calculateSolarEnergyOpt none 1 (1 / 5) =
      Except.error ("TypeError: Cannot convert undefined or null to object") ∧
    calculateWindEnergyOpt none (125664 / 100) (2 / 5) =
      Except.error ("TypeError: Cannot convert undefined or null to object") ∧
    calculateSolarEnergyOpt none 1 (1 / 5) ≠ Except.ok ([] : EnergyResult) ∧
    calculateWindEnergyOpt none (125664 / 100) (2 / 5) ≠ Except.ok ([] : EnergyResult) := by
  refine ⟨rfl, rfl, ?_, ?_⟩ <;> simp [calculateSolarEnergyOpt, calculateWindEnergyOpt]

/-- Claim C7 (amended): for a present samples mapping the calculators are
total — an empty mapping yields an empty result collection — but a
missing mapping raises a TypeError (Object.keys on undefined) instead of
returning an empty collection. -/
theorem C7_empty_and_missing (area eff warea weff : ℚ) :
    calculateSolarEnergyOpt (some []) area eff = Except.ok [] ∧
    calculateWindEnergyOpt (some []) warea weff = Except.ok [] ∧
    calculateSolarEnergyOpt none area eff =
      Except.error ("TypeError: Cannot convert undefined or null to object") ∧
    calculateWindEnergyOpt none warea weff =
      Except.error ("TypeError: Cannot convert undefined or null to object") :=
  ⟨rfl, rfl, rfl, rfl⟩

/-! Claim C9: invalid period keys contribute nothing. -/

lemma isMonthKey_false_of (k : String)
    (h : ¬(k.data.length = 6 ∧ k.data.all Char.isDigit = true) ∨ endsWith13 k = true) :
    isMonthKey k = false := by
  rw [isMonthKey]
  rcases h with h | h
  · rcases not_and_or.mp h with h6 | hd
    · have h6f : (k.data.length == 6) = false := by simpa using h6
      rw [h6f, Bool.false_and, Bool.false_and]
    · have hdf : k.data.all Char.isDigit = false := by
        cases hb : k.data.all Char.isDigit
        · rfl
        · exact absurd hb hd
      rw [hdf, Bool.and_false, Bool.false_and]
  · rw [h]
    simp

lemma foldl_calcStep_skip (f : ℚ → ℚ) (k : String) (v : ℚ) (hk : isMonthKey k = false)
    (d₁ d₂ : SampleMap) (res : EnergyResult) :
    (d₁ ++ (k, v) :: d₂).foldl (calcStep f) res = (d₁ ++ d₂).foldl (calcStep f) res := by
  rw [List.foldl_append, List.foldl_append, List.foldl_cons]
  congr 1
  simp [calcStep, hk]

/-- Claim C9: a key that does not consist of exactly six digits, or that
ends in "13", is skipped entirely by both calculators — removing it from
the samples (wherever it sits) leaves the whole output unchanged, so it
contributes neither a month entry nor anything to any annual total. -/
theorem C9_invalid_keys_skipped (d₁ d₂ : SampleMap) (k : String) (v : ℚ)
    (area eff warea weff : ℚ)
    (h : ¬(k.data.length = 6 ∧ k.data.all Char.isDigit = true) ∨ endsWith13 k = true) :
    calculateSolarEnergy (d₁ ++ (k, v) :: d₂) area eff =
      calculateSolarEnergy (d₁ ++ d₂) area eff ∧
    calculateWindEnergy (d₁ ++ (k, v) :: d₂) warea weff =
      calculateWindEnergy (d₁ ++ d₂) warea weff := by
  have hk := isMonthKey_false_of k h
  constructor
  · rw [calculateSolarEnergy, calculateSolarEnergy]
    exact foldl_calcStep_skip _ k v hk d₁ d₂ []
  · rw [calculateWindEnergy, calculateWindEnergy]
    exact foldl_calcStep_skip _ k v hk d₁ d₂ []

/-- Claim C9 witness: the annual-average sentinel key 201213 is dropped. -/
theorem C9_witness :
    endsWith13 ("201213") = true ∧
    (calculateSolarEnergy ([] ++ (("201213"), 9) :: [(("201201"), 4)]) 1 (1 / 5) =
        calculateSolarEnergy ([] ++ [(("201201"), 4)]) 1 (1 / 5) ∧
      calculateWindEnergy ([] ++ (("201213"), 9) :: [(("201201"), 4)]) (125664 / 100) (2 / 5) =
        calculateWindEnergy ([] ++ [(("201201"), 4)]) (125664 / 100) (2 / 5)) :=
  ⟨by decide, C9_invalid_keys_skipped [] [(("201201"), 4)] ("201213") 9 1 (1 / 5)
    (125664 / 100) (2 / 5) (Or.inr (by decide))⟩

/-! Claim C10: 0 is treated as a missing coordinate. -/

/-- Claim C10: the calculate route checks coordinate presence by
truthiness, so latitude or longitude equal to 0 (or absent) is rejected
with the missing-parameter error before any fetch, and the store is left
untouched. -/
theorem C10_truthiness_rejects_zero (content : StoreContent) (req : CalcRequest)
    (fetchResult : Option NasaData) (now : String)
    (h : req.latitude = some 0 ∨ req.longitude = some 0 ∨
      req.latitude = none ∨ req.longitude = none) :
    calculateEnergy content req fetchResult now =
      (CalcResponse.badRequest ("Latitude and longitude are required"), content, false) := by
  have hf : (falsyNum req.latitude || falsyNum req.longitude) = true := by
    rcases h with h | h | h | h <;> rw [h] <;> simp [falsyNum]
  rw [calculateEnergy, hf]
  simp

/-- Claim C10 witness: latitude 0 (the equator) is rejected. -/
theorem C10_witness :
    calculateEnergy (StoreContent.ok []) { latitude := some 0, longitude := some 50 }
        none ("t") =
      (CalcResponse.badRequest ("Latitude and longitude are required"),
        StoreContent.ok [], false) :=
  C10_truthiness_rejects_zero (StoreContent.ok [])
    { latitude := some 0, longitude := some 50 } none ("t") (Or.inl rfl)

/-! Claims C8 and C2: the calculate route. -/

lemma afterData_frame (content : StoreContent) (fetched : Bool) (lat lon : ℚ)
    (ed : CacheEntry) (req : CalcRequest) :
    (afterData content fetched lat lon ed req).2 = (content, fetched) := by
  rw [afterData]
  split
  · rfl
  · split
    · split <;> rfl
    · rfl

/-- Claim C8: a custom-parameter request whose raw data is already cached
and whose parameters differ from the defaults returns the recomputed
result without persisting anything: the store content is returned
unchanged and no fetch happens. -/
theorem C8_custom_params_not_persisted
    (content : StoreContent) (req : CalcRequest) (lat lon : ℚ) (ed : CacheEntry)
    (raw : NasaData) (rawSolar rawWind : SampleMap)
    (fetchResult : Option NasaData) (now : String)
    (hlat : req.latitude = some lat) (hlat0 : lat ≠ 0)
    (hlon : req.longitude = some lon) (hlon0 : lon ≠ 0)
    (hfind : findByCoordinates content lat lon = some ed)
    (hraw : ed.rawData = some raw)
    (hsolar : raw.solar = some rawSolar) (hwind : raw.wind = some rawWind)
    (hdiff : ¬(req.area = 1 ∧ req.solarEfficiency = 1 / 5 ∧ req.windEfficiency = 2 / 5)) :
    calculateEnergy content req fetchResult now =
      (CalcResponse.customResult lat lon
        (calculateSolarEnergy rawSolar req.area req.solarEfficiency)
        (calculateWindEnergy rawWind req.area req.windEfficiency)
        req.area req.solarEfficiency req.windEfficiency, content, false) := by
  have hf1 : falsyNum req.latitude = false := by
    rw [hlat]
    simp [falsyNum, hlat0]
  have hf2 : falsyNum req.longitude = false := by
    rw [hlon]
    simp [falsyNum, hlon0]
  have hd : (decide (req.area = 1) && decide (req.solarEfficiency = 1 / 5) &&
      decide (req.windEfficiency = 2 / 5)) = false := by
    rw [Bool.eq_false_iff]
    intro hc
    rw [Bool.and_eq_true, Bool.and_eq_true] at hc
    exact hdiff ⟨of_decide_eq_true hc.1.1, of_decide_eq_true hc.1.2, of_decide_eq_true hc.2⟩
  rw [calculateEnergy, hf1, hf2]
  simp only [Bool.or_self, Bool.false_eq_true, if_false, hlat, hlon, Option.getD_some,
    hfind, hraw, Option.isSome_some, if_true]
  rw [afterData, hraw]
  simp only [hsolar, hwind, hd, Bool.not_false, if_true]

/-- Claim C8 witness at a concrete cached entry and area 2 ≠ 1. -/
theorem C8_witness :
    findByCoordinates (StoreContent.ok [entryW]) 10 20 = some entryW ∧
    calculateEnergy (StoreContent.ok [entryW]) reqW none ("now") =
      (CalcResponse.customResult 10 20
        (calculateSolarEnergy [(("201201"), 4)] 2 (1 / 5))
        (calculateWindEnergy [(("201201"), 5)] 2 (2 / 5))
        2 (1 / 5) (2 / 5), StoreContent.ok [entryW], false) := by
  have hfind : findByCoordinates (StoreContent.ok [entryW]) 10 20 = some entryW := by
    rw [findByCoordinates, readDatabase]
    have hp : (decide (|entryW.latitude - (10 : ℚ)| < 1 / 100) &&
        decide (|entryW.longitude - (20 : ℚ)| < 1 / 100)) = true := by
      simp only [entryW, Bool.and_eq_true, decide_eq_true_eq]
      norm_num
    exact List.find?_cons_of_pos _ hp
  refine ⟨hfind, ?_⟩
  exact C8_custom_params_not_persisted (StoreContent.ok [entryW]) reqW 10 20 entryW nasaW
    [(("201201"), 4)] [(("201201"), 5)] none ("now") rfl (by norm_num) rfl (by norm_num)
    hfind rfl rfl rfl (fun hc => by norm_num [reqW] at hc)

/-- Claim C2: range validation exists only in validateCoordinates (the GET
routes); the POST /api/calculate controller never range-checks, so an
out-of-range coordinate passes its truthiness check, reaches the NASA
fetch, and is even written to the cache — contradicting the documented
400 rejection before any fetch or cache write. The boundary values are
accepted by validateCoordinates and latitude 500 is rejected by it. -/
theorem C2_calculate_route_skips_range_validation :
    validateCoordinates 90 180 = CoordCheck.ok 90 180 ∧
    validateCoordinates (-90) (-180) = CoordCheck.ok (-90) (-180) ∧
    validateCoordinates 500 100 = CoordCheck.err ("Latitude must be between -90 and 90") ∧
    (calculateEnergy (StoreContent.ok []) { latitude := some 500, longitude := some 100 }
        (some nasaW) ("t")).2 = (StoreContent.ok [entry500], true) := by
  refine ⟨?_, ?_, ?_, ?_⟩
  · rw [validateCoordinates, if_neg (by norm_num), if_neg (by norm_num)]
  · rw [validateCoordinates, if_neg (by norm_num), if_neg (by norm_num)]
  · rw [validateCoordinates, if_pos (by norm_num)]
  · have hf1 : falsyNum (some (500 : ℚ)) = false := by
      simp only [falsyNum, decide_eq_false_iff_not]
      norm_num
    have hf2 : falsyNum (some (100 : ℚ)) = false := by
      simp only [falsyNum, decide_eq_false_iff_not]
      norm_num
    have hmiss : findByCoordinates (StoreContent.ok []) 500 100 = none := rfl
    rw [calculateEnergy]
    simp only [hf1, hf2, Bool.or_self, Bool.false_eq_true, if_false, Option.getD_some, hmiss]
    rw [fetchBranch]
    simp only [nasaW, calculateSolarEnergyOpt, calculateWindEnergyOpt]
    rw [saveEnergyData]
    simp only [readDatabase, List.filter_nil, List.nil_append]
    rw [afterData_frame]
    simp only [entry500, nasaW]

end SolarMap
